import Mathlib

/-!
Verification of the salesbison ledger bot (src/salesbison.py).

The pure core of the program is embedded shallowly:
* the timestamp codec (strftime with pattern YYYY-MM-DD HH:MM:SS ET, and
  the function given in the source as a parser of ET timestamps),
* the aggregation engine compute_counts,
* header detection of fetch_sales_rows,
* the roster map, its TTL cache, and lookup_manager_for_rep,
* the terminal step of the capture wizard (the callback of PlanSelect),
* the bulk-log flow (BulkCountModal.on_submit and BulkISPView._submit).

Sheets are lists of rows, a row is a list of cell strings.  Python dicts of
counts are association lists with last-write-wins update; dict.get is
lookupCount.  All functions are total, so the Python code path that never
raises is modelled by totality.
-/

namespace Salesbison

/-! ### Python string primitives -/

/-- ASCII whitespace recognised by str.strip (the Unicode extras that
Python would additionally strip never occur in the data this bot writes). -/
def isPySpace (c : Char) : Bool :=
  c = ' ' || c = '\t' || c = '\n' || c = '\r' || c = '\x0b' || c = '\x0c'

/-- str.strip on a list of characters. -/
def pyStripChars (cs : List Char) : List Char :=
  ((cs.dropWhile isPySpace).reverse.dropWhile isPySpace).reverse

/-- str.strip. -/
def pyStrip (s : String) : String :=
  ⟨pyStripChars s.data⟩

/-- str.lower (ASCII case fold, which covers every string the bot compares). -/
def pyLower (s : String) : String :=
  ⟨s.data.map Char.toLower⟩

/-- Decimal digit to character, as produced by strftime zero padding. -/
def dchar : Nat → Char
  | 0 => '0'
  | 1 => '1'
  | 2 => '2'
  | 3 => '3'
  | 4 => '4'
  | 5 => '5'
  | 6 => '6'
  | 7 => '7'
  | 8 => '8'
  | 9 => '9'
  | _ => '?'

/-- Character to decimal digit; none on a non-digit. -/
def dvalOf (c : Char) : Option Nat :=
  if c = '0' then some 0
  else if c = '1' then some 1
  else if c = '2' then some 2
  else if c = '3' then some 3
  else if c = '4' then some 4
  else if c = '5' then some 5
  else if c = '6' then some 6
  else if c = '7' then some 7
  else if c = '8' then some 8
  else if c = '9' then some 9
  else none

/-- int() applied to a string of an optional sign and decimal digits.
(The underscore digit grouping that Python additionally tolerates never
occurs in the sheets this bot reads and is not modelled.) -/
def digitsVal : List Char → Option Nat
  | [] => none
  | [c] => dvalOf c
  | c :: cs => match dvalOf c, digitsVal cs with
    | some d, some v => some (d * 10 ^ cs.length + v)
    | _, _ => none

/-- Python int(s) for decimal strings: strips whitespace, accepts one
optional sign, then a nonempty digit run. -/
def pyParseInt (s : String) : Option Int :=
  match pyStripChars s.data with
  | '-' :: rest => (digitsVal rest).map (fun n => -(n : Int))
  | '+' :: rest => (digitsVal rest).map (fun n => (n : Int))
  | cs => (digitsVal cs).map (fun n => (n : Int))

/-! ### Timestamp codec -/

/-- A zoned wall-clock instant as the bot sees it: every timestamp the
system writes or parses carries the one fixed Eastern zone, so the zone is
implicit and only the calendar fields are kept. -/
structure ETDateTime where
  year : Nat
  month : Nat
  day : Nat
  hour : Nat
  minute : Nat
  second : Nat
deriving DecidableEq, Repr

/-- Gregorian leap year rule used by datetime. -/
def isLeap (y : Nat) : Bool :=
  (y % 4 = 0 && y % 100 ≠ 0) || y % 400 = 0

/-- Days in a month, as validated by the datetime constructor. -/
def daysInMonth (y m : Nat) : Nat :=
  if m = 2 then (if isLeap y then 29 else 28)
  else if m = 4 ∨ m = 6 ∨ m = 9 ∨ m = 11 then 30
  else 31

/-- Field ranges enforced by the datetime constructor. -/
def validDT (y mo d h mi s : Nat) : Prop :=
  1 ≤ y ∧ y ≤ 9999 ∧ 1 ≤ mo ∧ mo ≤ 12 ∧ 1 ≤ d ∧ d ≤ daysInMonth y mo ∧
    h ≤ 23 ∧ mi ≤ 59 ∧ s ≤ 59

instance (y mo d h mi s : Nat) : Decidable (validDT y mo d h mi s) := by
  unfold validDT; infer_instance

/-- Two-digit zero-padded field of strftime. -/
def pad2 (n : Nat) : List Char :=
  [dchar (n / 10), dchar (n % 10)]

/-- Four-digit zero-padded year field of strftime. -/
def pad4 (n : Nat) : List Char :=
  [dchar (n / 1000), dchar (n / 100 % 10), dchar (n / 10 % 10), dchar (n % 10)]

/-- Character list of strftime with pattern YYYY-MM-DD HH:MM:SS ET. -/
def formatETChars (t : ETDateTime) : List Char :=
  pad4 t.year ++ ['-'] ++ pad2 t.month ++ ['-'] ++ pad2 t.day ++ [' '] ++ pad2 t.hour
    ++ [':'] ++ pad2 t.minute ++ [':'] ++ pad2 t.second ++ [' ', 'E', 'T']

/-- datetime.now(ET).strftime of the source, applied to a given instant. -/
def formatET (t : ETDateTime) : String :=
  ⟨formatETChars t⟩

/-- Greedily consume up to the fuel bound of leading digits,
accumulating their value; stops at the first non-digit. -/
def grabDigits : Nat → Nat → List Char → Nat × List Char
  | 0, acc, cs => (acc, cs)
  | _ + 1, acc, [] => (acc, [])
  | k + 1, acc, c :: cs =>
    match dvalOf c with
    | some d => grabDigits k (acc * 10 + d) cs
    | none => (acc, c :: cs)

/-- A one-to-max digit numeric field of strptime (directives m, d, H, M, S
all match one or two digits before the following literal). -/
def readNum (max : Nat) (cs : List Char) : Option (Nat × List Char) :=
  match cs with
  | [] => none
  | c :: _ => if (dvalOf c).isSome then some (grabDigits max 0 cs) else none

/-- The year directive of strptime matches exactly four digits. -/
def readYear : List Char → Option (Nat × List Char)
  | a :: b :: c :: d :: rest =>
    (match dvalOf a, dvalOf b, dvalOf c, dvalOf d with
     | some w, some x, some y, some z => some (((w * 10 + x) * 10 + y) * 10 + z, rest)
     | _, _, _, _ => none)
  | _ => none

/-- A literal character of the strptime pattern. -/
def expectChar (c : Char) : List Char → Option (List Char)
  | [] => none
  | x :: rest => if x = c then some rest else none

/-- A whitespace character in the strptime pattern matches a nonempty
whitespace run in the input. -/
def skipWs1 : List Char → Option (List Char)
  | [] => none
  | c :: rest => if isPySpace c then some (rest.dropWhile isPySpace) else none

/-- The parsing function of the source for ET timestamps, on characters:
datetime.strptime with pattern YYYY-MM-DD HH:MM:SS ET anchored at both
ends, followed by the range validation the datetime constructor performs.
Returns none whenever strptime would raise. -/
def parseETChars (cs : List Char) : Option ETDateTime := do
  let (y, cs) ← readYear cs
  let cs ← expectChar '-' cs
  let (mo, cs) ← readNum 2 cs
  let cs ← expectChar '-' cs
  let (d, cs) ← readNum 2 cs
  let cs ← skipWs1 cs
  let (h, cs) ← readNum 2 cs
  let cs ← expectChar ':' cs
  let (mi, cs) ← readNum 2 cs
  let cs ← expectChar ':' cs
  let (s, cs) ← readNum 2 cs
  let cs ← skipWs1 cs
  let cs ← expectChar 'E' cs
  let cs ← expectChar 'T' cs
  if cs = [] ∧ validDT y mo d h mi s then
    some ⟨y, mo, d, h, mi, s⟩
  else
    none

/-- The ET timestamp parser of the source: strip, then strptime; an aware
datetime in the fixed Eastern zone on success, none on failure. -/
def parseETTimestamp (s : String) : Option ETDateTime :=
  parseETChars (pyStripChars s.data)

/-! ### Aggregation engine: compute_counts -/

/-- A Python dict of counts as an association list.  Updating a present key
rewrites it in place; a fresh key is appended at the end, exactly the
insertion-ordered behaviour of a dict. -/
def updateCount (counts : List (String × Nat)) (k : String) : List (String × Nat) :=
  match counts with
  | [] => [(k, 1)]
  | (k', v) :: rest => if k' = k then (k', v + 1) :: rest else (k', v) :: updateCount rest k

/-- counts.get(k, 0). -/
def lookupCount (counts : List (String × Nat)) (k : String) : Nat :=
  match counts with
  | [] => 0
  | (k', v) :: rest => if k' = k then v else lookupCount rest k

/-- Sum of every value of the counts dict: sum(counts.values()). -/
def totalCount (counts : List (String × Nat)) : Nat :=
  (counts.map Prod.snd).sum

/-- The customer cell of a row: column E stripped when present, else the
empty string (compute_counts line 223). -/
def customerOf (r : List String) : String :=
  if 5 ≤ r.length then pyStrip (r.getD 4 "") else ""

/-- The window test of compute_counts (lines 232-240): the include flag
starts false, the recognised modes set it, an unknown mode leaves it
false.  Equality of the dates of two aware datetimes in the same zone is
equality of their calendar fields. -/
def windowInclude (mode : String) (ts now : ETDateTime) : Bool :=
  if mode = "all" then true
  else if mode = "daily" then
    decide (ts.year = now.year ∧ ts.month = now.month ∧ ts.day = now.day)
  else if mode = "monthly" then
    decide (ts.year = now.year ∧ ts.month = now.month)
  else if mode = "ytd" then
    decide (ts.year = now.year)
  else false

/-- The grouping key of a row (compute_counts lines 245-249): the manager
cell or Unassigned for the manager grouping, otherwise the stable rep id
with the rep name as fallback when the id cell is blank. -/
def rowKeyOf (key : String) (r : List String) : String :=
  if key = "manager" then
    (if pyStrip (r.getD 3 "") = "" then "Unassigned" else pyStrip (r.getD 3 ""))
  else
    (if pyStrip (r.getD 1 "") = "" then pyStrip (r.getD 2 "") else pyStrip (r.getD 1 ""))

/-- One iteration of the row loop of compute_counts (lines 215-251): skip
short rows, skip undecodable timestamps, skip dealer rows when the
exclusion flag is set, then count the row under its group key when the
window admits it. -/
def processRow (mode key : String) (ex : Bool) (now : ETDateTime)
    (counts : List (String × Nat)) (r : List String) : List (String × Nat) :=
  if r.length < 4 then counts
  else
    match parseETTimestamp (r.getD 0 "") with
    | none => counts
    | some ts =>
      if ex && (pyLower (customerOf r) = "dealer") then counts
      else if windowInclude mode ts now then updateCount counts (rowKeyOf key r)
      else counts

/-- compute_counts of the source.  The current time is a parameter
(datetime.now of the fixed zone at the call). -/
def compute_counts (rows : List (List String)) (mode key : String) (ex : Bool)
    (now : ETDateTime) : List (String × Nat) :=
  rows.foldl (processRow mode key ex now) []

/-- The full admission predicate of one row: the same tests as processRow,
as a Boolean. -/
def rowPasses (mode : String) (ex : Bool) (now : ETDateTime) (r : List String) : Bool :=
  if r.length < 4 then false
  else
    match parseETTimestamp (r.getD 0 "") with
    | none => false
    | some ts =>
      if ex && (pyLower (customerOf r) = "dealer") then false
      else windowInclude mode ts now

/-! ### Header detection of fetch_sales_rows -/

/-- Whether the needle starts the haystack. -/
def startsWithChars : List Char → List Char → Bool
  | [], _ => true
  | _ :: _, [] => false
  | a :: as, b :: bs => a = b && startsWithChars as bs

/-- The Python in operator on strings: substring containment. -/
def containsSub (needle : List Char) : List Char → Bool
  | [] => startsWithChars needle []
  | b :: bs => startsWithChars needle (b :: bs) || containsSub needle bs

/-- Substring containment on strings. -/
def pyIn (needle hay : String) : Bool :=
  containsSub needle.data hay.data

/-- The header heuristic of fetch_sales_rows (lines 184-188): the row
looks like a header when its first stripped lowercased cell contains the
word timestamp, or the concatenation of all its stripped lowercased cells
contains the word rep; an empty first row is never header-like. -/
def headerLikeSales (first_row : List String) : Bool :=
  let first := first_row.map (fun c => pyLower (pyStrip c))
  if first = [] then false
  else pyIn "timestamp" (first.headD "") || pyIn "rep" (String.join first)

/-- The pure part of fetch_sales_rows (lines 179-192), applied to the
values of the sheet response: drop the first row exactly when it looks
like a header. -/
def fetch_sales_rows (values : List (List String)) : List (List String) :=
  if values = [] then []
  else if headerLikeSales (values.headD []) then values.tail else values

/-! ### Roster map and cache -/

/-- One roster entry: the value stored for a rep id by build_roster_map. -/
structure RosterInfo where
  rep_name : String
  manager : String
  active : Bool
deriving DecidableEq, Repr

/-- Python dict indexing assignment on an association list keyed by rep
id: overwrite in place, append a fresh key. -/
def setRoster (m : List (Int × RosterInfo)) (k : Int) (v : RosterInfo) :
    List (Int × RosterInfo) :=
  match m with
  | [] => [(k, v)]
  | (k', v') :: rest => if k' = k then (k, v) :: rest else (k', v') :: setRoster rest k v

/-- dict.get on the roster map. -/
def lookupRoster (m : List (Int × RosterInfo)) (k : Int) : Option RosterInfo :=
  match m with
  | [] => none
  | (k', v) :: rest => if k' = k then some v else lookupRoster rest k

/-- The row loop of build_roster_map (lines 302-321): rows shorter than
three cells are skipped, the id must parse as an int, inactivity is any of
false, 0, no, n after strip and lower, and the row is stored only when the
id and the manager cell are both truthy. -/
def buildRosterFold (rows : List (List String)) (out : List (Int × RosterInfo)) :
    List (Int × RosterInfo) :=
  match rows with
  | [] => out
  | row :: rest =>
    if row.length < 3 then buildRosterFold rest out
    else
      let rep_name := if 2 ≤ row.length then pyStrip (row.getD 1 "") else ""
      let manager := if 3 ≤ row.length then pyStrip (row.getD 2 "") else ""
      let active_raw := if 4 ≤ row.length then pyLower (pyStrip (row.getD 3 "")) else "true"
      match pyParseInt (pyStrip (row.getD 0 "")) with
      | none => buildRosterFold rest out
      | some rep_id =>
        let active := ¬ (active_raw = "false" ∨ active_raw = "0" ∨
          active_raw = "no" ∨ active_raw = "n")
        if rep_id ≠ 0 ∧ manager ≠ "" then
          buildRosterFold rest (setRoster out rep_id ⟨rep_name, manager, active⟩)
        else buildRosterFold rest out

/-- build_roster_map of the source (lines 288-321), header drop included:
the first row is dropped when its first stripped lowercased cell contains
repid or the concatenation of its stripped lowercased cells contains the
word manager. -/
def build_roster_map (values : List (List String)) : List (Int × RosterInfo) :=
  if values = [] then []
  else
    let first_row := values.headD []
    let first := first_row.map (fun c => pyLower (pyStrip c))
    let header_like :=
      if first = [] then false
      else pyIn "repid" (first.headD "") || pyIn "manager" (String.join first)
    buildRosterFold (if header_like then values.tail else values) []

/-- The module level roster cache: the ts and map slots of the source
dict, last fill time in unix seconds and the cached map. -/
structure RosterCache where
  ts : Int
  map : List (Int × RosterInfo)
deriving DecidableEq, Repr

/-- The TTL of the roster cache (line 276). -/
def ROSTER_TTL_SECONDS : Int := 120

/-- get_roster_map_cached (lines 323-333), with the clock and the current
store content injected: a nonempty cached map younger than the TTL is
returned untouched without reading the store; otherwise the store is read
in full, rebuilt, and cached with the current time.  Returns the resolved
map together with the updated cache state. -/
def get_roster_map_cached (store : List (List String)) (now : Int)
    (c : RosterCache) : List (Int × RosterInfo) × RosterCache :=
  if c.map ≠ [] ∧ now - c.ts < ROSTER_TTL_SECONDS then (c.map, c)
  else
    let m := build_roster_map store
    (m, ⟨now, m⟩)

/-- lookup_manager_for_rep (lines 335-341), on a resolved roster map: none
on a missing entry, none on an inactive entry, else the manager. -/
def lookup_manager_for_rep (roster : List (Int × RosterInfo)) (rep_id : Int) :
    Option String :=
  match lookupRoster roster rep_id with
  | none => none
  | some info => if info.active = false then none else some info.manager

/-! ### Capture wizard: terminal step -/

/-- The selections PlanSelect holds when the plan step fires: the state
carried through the modal and the provider buttons. -/
structure PlanSelectState where
  customer : String
  isp : String
  user_id : Int
deriving DecidableEq, Repr

/-- append_sale_to_sheet (lines 137-145): one row appended at the end of
the sales range, with the timestamp encoded at the moment of the call. -/
def append_sale_to_sheet (sheet : List (List String)) (now : ETDateTime)
    (rep_id : Int) (rep_name manager customer isp plan : String) :
    List (List String) :=
  sheet ++ [[formatET now, toString rep_id, rep_name, manager, customer, isp, plan]]

/-- get_rep_counts (lines 255-262): daily, monthly and ytd counts of one
rep, each recomputed from the sheet just read. -/
structure RepCounts where
  daily : Nat
  monthly : Nat
  ytd : Nat
deriving DecidableEq, Repr

/-- get_rep_counts of the source, with the sheet contents injected. -/
def get_rep_counts (sheet : List (List String)) (rep_id : Int) (now : ETDateTime) :
    RepCounts :=
  let rows := fetch_sales_rows sheet
  let rep_key := toString rep_id
  { daily := lookupCount (compute_counts rows "daily" "rep" false now) rep_key
    monthly := lookupCount (compute_counts rows "monthly" "rep" false now) rep_key
    ytd := lookupCount (compute_counts rows "ytd" "rep" false now) rep_key }

/-- Outcome of the plan step: either the commit is blocked for a missing
manager, or a sale is logged and the daily count shown in the reply. -/
inductive SaleOutcome where
  | blocked : SaleOutcome
  | logged : Nat → SaleOutcome
deriving DecidableEq, Repr

/-- The callback of PlanSelect (lines 569-605), given a resolved roster
map, the interaction user and the sheet contents: resolve the manager of
the invoking user, block without writing when none resolves, otherwise
append exactly one row and reply with the daily count obtained by
re-reading the ledger through get_rep_counts.  Returns the new sheet and
the outcome.  Nothing in the state marks the session as committed. -/
def PlanSelect_callback (roster : List (Int × RosterInfo)) (st : PlanSelectState)
    (plan : String) (userId : Int) (userName : String)
    (sheet : List (List String)) (now : ETDateTime) :
    List (List String) × SaleOutcome :=
  match lookup_manager_for_rep roster userId with
  | none => (sheet, .blocked)
  | some manager =>
    let sheet' := append_sale_to_sheet sheet now userId userName manager
      st.customer st.isp plan
    (sheet', .logged (get_rep_counts sheet' userId now).daily)

/-! ### Bulk capture -/

/-- The cap of BulkISPView (line 356). -/
def MAX_BULK_LOG : Int := 200

/-- Result of BulkCountModal.on_submit: each rejection carries its own
message in the source, so each is a distinct constructor. -/
inductive BulkCountResult where
  | notWholeNumber : BulkCountResult
  | tooSmall : BulkCountResult
  | tooLarge : BulkCountResult
  | proceed : Int → BulkCountResult
deriving DecidableEq, Repr

/-- The validation of BulkCountModal.on_submit (lines 372-385):
int(value.strip()) or a not-a-number rejection, then the at-least-one and
at-most-200 checks. -/
def BulkCountModal_on_submit (value : String) : BulkCountResult :=
  match pyParseInt (pyStrip value) with
  | none => .notWholeNumber
  | some n =>
    if n ≤ 0 then .tooSmall
    else if n > MAX_BULK_LOG then .tooLarge
    else .proceed n

/-- get_dealer_group_name (lines 131-132): the configured dealer group
label of the invoking channel, with the literal fallback of the source. -/
def get_dealer_group_name (groups : List (Int × String)) (channel_id : Int) : String :=
  match groups with
  | [] => "Dealer Group"
  | (c, g) :: rest => if c = channel_id then g else get_dealer_group_name rest channel_id

/-- The rows built by BulkISPView._submit (lines 411-416): count copies of
the one synthetic dealer row, every copy carrying the same timestamp
encoded once before the loop. -/
def BulkISPView_submit_rows (count : Int) (userId : Int)
    (userName groupName isp : String) (now : ETDateTime) : List (List String) :=
  List.replicate count.toNat
    [formatET now, toString userId, userName, groupName, "Dealer", isp, ""]

/-- The whole bulk-log flow: the count modal validates, and only a
validated count reaches the provider step, where the batch is appended in
one call; every rejection leaves the sheet untouched. -/
def bulklog_flow (value : String) (userId : Int) (userName : String)
    (groups : List (Int × String)) (channel_id : Int) (isp : String)
    (now : ETDateTime) (sheet : List (List String)) :
    List (List String) × BulkCountResult :=
  match BulkCountModal_on_submit value with
  | .proceed n =>
    (sheet ++ BulkISPView_submit_rows n userId userName
      (get_dealer_group_name groups channel_id) isp now, .proceed n)
  | r => (sheet, r)

/-! ### Support lemmas for the aggregation engine -/

theorem processRow_eq (mode key : String) (ex : Bool) (now : ETDateTime)
    (counts : List (String × Nat)) (r : List String) :
    processRow mode key ex now counts r =
      if rowPasses mode ex now r then updateCount counts (rowKeyOf key r) else counts := by
  unfold processRow rowPasses
  split
  · simp
  · split
    · rfl
    · by_cases hd : (ex && (pyLower (customerOf r) = "dealer")) = true
      · simp [hd]
      · simp only [Bool.not_eq_true] at hd
        simp [hd]

theorem lookupCount_updateCount (counts : List (String × Nat)) (k' k : String) :
    lookupCount (updateCount counts k') k =
      lookupCount counts k + (if k' = k then 1 else 0) := by
  induction counts with
  | nil => by_cases h : k' = k <;> simp [updateCount, lookupCount, h]
  | cons p rest ih =>
    obtain ⟨kk, v⟩ := p
    simp only [updateCount]
    by_cases h1 : kk = k'
    · subst h1
      simp only [if_pos rfl, lookupCount]
      by_cases h2 : kk = k <;> simp [h2]
    · simp only [if_neg h1, lookupCount]
      by_cases h2 : kk = k
      · subst h2
        have hk : ¬ k' = kk := fun h => h1 h.symm
        simp [hk]
      · simp [h2, ih]

theorem totalCount_updateCount (counts : List (String × Nat)) (k : String) :
    totalCount (updateCount counts k) = totalCount counts + 1 := by
  induction counts with
  | nil => simp [updateCount, totalCount]
  | cons p rest ih =>
    obtain ⟨kk, v⟩ := p
    by_cases h : kk = k <;> simp_all [updateCount, totalCount] <;> omega

theorem lookupCount_foldl (mode key : String) (ex : Bool) (now : ETDateTime)
    (rows : List (List String)) (init : List (String × Nat)) (k : String) :
    lookupCount (rows.foldl (processRow mode key ex now) init) k =
      lookupCount init k +
        rows.countP (fun r => rowPasses mode ex now r && (rowKeyOf key r = k)) := by
  induction rows generalizing init with
  | nil => simp
  | cons r rest ih =>
    rw [List.foldl_cons, ih, List.countP_cons, processRow_eq]
    by_cases hp : rowPasses mode ex now r <;>
      by_cases hk : rowKeyOf key r = k <;>
        (simp [hp, hk, lookupCount_updateCount]; try omega)

theorem totalCount_foldl (mode key : String) (ex : Bool) (now : ETDateTime)
    (rows : List (List String)) (init : List (String × Nat)) :
    totalCount (rows.foldl (processRow mode key ex now) init) =
      totalCount init + rows.countP (rowPasses mode ex now) := by
  induction rows generalizing init with
  | nil => simp
  | cons r rest ih =>
    rw [List.foldl_cons, ih, List.countP_cons, processRow_eq]
    by_cases hp : rowPasses mode ex now r <;>
      (simp [hp, totalCount_updateCount]; try omega)

/-- Each count of compute_counts is the number of rows that pass all the
filters and carry that group key. -/
theorem lookupCount_compute_counts (rows : List (List String)) (mode key : String)
    (ex : Bool) (now : ETDateTime) (k : String) :
    lookupCount (compute_counts rows mode key ex now) k =
      rows.countP (fun r => rowPasses mode ex now r && (rowKeyOf key r = k)) := by
  have h := lookupCount_foldl mode key ex now rows [] k
  simpa [compute_counts, lookupCount] using h

/-- The total of compute_counts is the number of rows passing the filters. -/
theorem totalCount_compute_counts (rows : List (List String)) (mode key : String)
    (ex : Bool) (now : ETDateTime) :
    totalCount (compute_counts rows mode key ex now) =
      rows.countP (rowPasses mode ex now) := by
  have h := totalCount_foldl mode key ex now rows []
  simpa [compute_counts, totalCount] using h

example : parseETTimestamp "2024-03-04 05:06:07 ET" = some ⟨2024, 3, 4, 5, 6, 7⟩ := by decide
example : parseETTimestamp " 2024-3-4  5:6:7  ET " = some ⟨2024, 3, 4, 5, 6, 7⟩ := by decide
example : parseETTimestamp "2023-02-29 00:00:00 ET" = none := by decide
example : parseETTimestamp "2024-02-29 00:00:00 ET" = some ⟨2024, 2, 29, 0, 0, 0⟩ := by decide
example : parseETTimestamp "2024-03-04 05:06:07 CT" = none := by decide
example : parseETTimestamp "garbage" = none := by decide
example : parseETTimestamp (formatET ⟨2024, 12, 31, 23, 59, 59⟩) = some ⟨2024, 12, 31, 23, 59, 59⟩ := by decide
example : pyParseInt " 27 " = some 27 := by decide
example : pyParseInt "-4" = some (-4) := by decide
example : pyParseInt "4x" = none := by decide

example : fetch_sales_rows [["Timestamp", "RepId"], ["2024-01-01 00:00:00 ET", "1", "A", "M"]]
    = [["2024-01-01 00:00:00 ET", "1", "A", "M"]] := by decide
example : fetch_sales_rows [["2024-01-01 00:00:00 ET", "1", "A", "M"]]
    = [["2024-01-01 00:00:00 ET", "1", "A", "M"]] := by decide
example : build_roster_map [["RepId", "RepName", "Manager", "Active"], ["7", "Ann", "Mgr", "TRUE"]]
    = [(7, ⟨"Ann", "Mgr", true⟩)] := by decide
example : build_roster_map [["7", "Ann", "Mgr", "no"]] = [(7, ⟨"Ann", "Mgr", false⟩)] := by decide
example : lookup_manager_for_rep [(7, ⟨"Ann", "Mgr", false⟩)] 7 = none := by decide
example : BulkCountModal_on_submit " 27 " = .proceed 27 := by decide
example : BulkCountModal_on_submit "500" = .tooLarge := by decide
example : BulkCountModal_on_submit "0" = .tooSmall := by decide
example : BulkCountModal_on_submit "abc" = .notWholeNumber := by decide

/-! ### Support lemmas for the timestamp codec -/

theorem dvalOf_dchar (d : Nat) (h : d < 10) : dvalOf (dchar d) = some d := by
  interval_cases d <;> rfl

theorem isPySpace_dchar (d : Nat) : isPySpace (dchar d) = false := by
  unfold dchar
  split <;> rfl

theorem daysInMonth_le (y m : Nat) : daysInMonth y m ≤ 31 := by
  unfold daysInMonth
  split
  · split <;> omega
  · split <;> omega

theorem expectChar_self (c : Char) (rest : List Char) :
    expectChar c (c :: rest) = some rest := by
  simp [expectChar]

theorem skipWs1_space (l : List Char) :
    skipWs1 (' ' :: l) = some (l.dropWhile isPySpace) := by
  simp [skipWs1, show isPySpace ' ' = true from rfl]

theorem readYear_pad4 (y : Nat) (h : y ≤ 9999) (rest : List Char) :
    readYear (pad4 y ++ rest) = some (y, rest) := by
  have h1 : y / 1000 < 10 := by omega
  have h2 : y / 100 % 10 < 10 := Nat.mod_lt _ (by norm_num)
  have h3 : y / 10 % 10 < 10 := Nat.mod_lt _ (by norm_num)
  have h4 : y % 10 < 10 := Nat.mod_lt _ (by norm_num)
  simp only [pad4, List.cons_append, List.nil_append, readYear,
    dvalOf_dchar _ h1, dvalOf_dchar _ h2, dvalOf_dchar _ h3, dvalOf_dchar _ h4]
  refine congrArg some (Prod.ext ?_ rfl)
  simp only
  omega

theorem readNum_pad2 (m : Nat) (h : m < 100) (rest : List Char) :
    readNum 2 (pad2 m ++ rest) = some (m, rest) := by
  have h1 : m / 10 < 10 := by omega
  have h2 : m % 10 < 10 := Nat.mod_lt _ (by norm_num)
  simp only [pad2, List.cons_append, List.nil_append, readNum,
    dvalOf_dchar _ h1, Option.isSome_some, if_pos rfl, grabDigits,
    dvalOf_dchar _ h2]
  refine congrArg some (Prod.ext ?_ rfl)
  simp only
  omega

theorem dropWhile_pad2 (m : Nat) (rest : List Char) :
    (pad2 m ++ rest).dropWhile isPySpace = pad2 m ++ rest := by
  simp [pad2, List.dropWhile_cons, isPySpace_dchar]

theorem pyStripChars_format (t : ETDateTime) :
    pyStripChars (formatETChars t) = formatETChars t := by
  have h1 : (formatETChars t).dropWhile isPySpace = formatETChars t := by
    unfold formatETChars
    simp [pad4, List.cons_append, List.dropWhile_cons, isPySpace_dchar]
  have h2 : (formatETChars t).reverse.dropWhile isPySpace = (formatETChars t).reverse := by
    unfold formatETChars
    simp [List.reverse_append, List.dropWhile_cons, show isPySpace 'T' = false from rfl]
  unfold pyStripChars
  rw [h1, h2, List.reverse_reverse]

theorem parseETChars_format (t : ETDateTime)
    (h : validDT t.year t.month t.day t.hour t.minute t.second) :
    parseETChars (formatETChars t) = some t := by
  obtain ⟨hy1, hy2, hm1, hm2, hd1, hd2, hh, hmi, hs⟩ := h
  have hdm := daysInMonth_le t.year t.month
  have hm100 : t.month < 100 := by omega
  have hd100 : t.day < 100 := by omega
  have hh100 : t.hour < 100 := by omega
  have hmi100 : t.minute < 100 := by omega
  have hs100 : t.second < 100 := by omega
  have hvalid : validDT t.year t.month t.day t.hour t.minute t.second :=
    ⟨hy1, hy2, hm1, hm2, hd1, hd2, hh, hmi, hs⟩
  unfold formatETChars parseETChars
  simp only [List.append_assoc, List.singleton_append, List.cons_append, List.nil_append]
  rw [readYear_pad4 _ hy2]
  simp only [Option.bind_eq_bind, Option.some_bind]
  rw [expectChar_self, Option.some_bind, readNum_pad2 _ hm100, Option.some_bind]
  rw [expectChar_self, Option.some_bind, readNum_pad2 _ hd100, Option.some_bind]
  rw [skipWs1_space, Option.some_bind, dropWhile_pad2, readNum_pad2 _ hh100,
    Option.some_bind]
  rw [expectChar_self, Option.some_bind, readNum_pad2 _ hmi100, Option.some_bind]
  rw [expectChar_self, Option.some_bind, readNum_pad2 _ hs100, Option.some_bind]
  rw [show (([' ', 'E', 'T'] : List Char)) = ' ' :: ['E', 'T'] from rfl, skipWs1_space,
    Option.some_bind]
  rw [show (['E', 'T'] : List Char).dropWhile isPySpace = ['E', 'T'] by
    simp [List.dropWhile_cons, show isPySpace 'E' = false from rfl]]
  rw [expectChar_self, Option.some_bind, expectChar_self, Option.some_bind]
  rw [if_pos ⟨rfl, hvalid⟩]

/-! ### Support lemmas: substring containment, windows, row admission -/

theorem startsWithChars_iff (n : List Char) : ∀ h : List Char,
    startsWithChars n h = true ↔ n <+: h := by
  induction n with
  | nil => intro h; simp [startsWithChars]
  | cons a as ih =>
    intro h
    cases h with
    | nil => simp [startsWithChars]
    | cons b bs => simp [startsWithChars, ih, List.cons_prefix_cons]

theorem containsSub_iff (n : List Char) : ∀ h : List Char,
    containsSub n h = true ↔ n <:+: h := by
  intro h
  induction h with
  | nil => simp [containsSub, startsWithChars_iff]
  | cons b bs ih => simp [containsSub, startsWithChars_iff, ih, List.infix_cons_iff]

theorem windowInclude_daily (ts now : ETDateTime) :
    windowInclude "daily" ts now =
      decide (ts.year = now.year ∧ ts.month = now.month ∧ ts.day = now.day) := rfl

theorem windowInclude_monthly (ts now : ETDateTime) :
    windowInclude "monthly" ts now =
      decide (ts.year = now.year ∧ ts.month = now.month) := rfl

theorem windowInclude_ytd (ts now : ETDateTime) :
    windowInclude "ytd" ts now = decide (ts.year = now.year) := rfl

theorem windowInclude_all (ts now : ETDateTime) :
    windowInclude "all" ts now = true := rfl

theorem windowInclude_daily_le_monthly (ts now : ETDateTime)
    (h : windowInclude "daily" ts now = true) :
    windowInclude "monthly" ts now = true := by
  rw [windowInclude_daily] at h
  rw [windowInclude_monthly]
  simp only [decide_eq_true_eq] at h ⊢
  exact ⟨h.1, h.2.1⟩

theorem windowInclude_monthly_le_ytd (ts now : ETDateTime)
    (h : windowInclude "monthly" ts now = true) :
    windowInclude "ytd" ts now = true := by
  rw [windowInclude_monthly] at h
  rw [windowInclude_ytd]
  simp only [decide_eq_true_eq] at h ⊢
  exact h.1

theorem rowPasses_of_parse (mode : String) (ex : Bool) (now ts : ETDateTime)
    (r : List String) (hlen : 4 ≤ r.length)
    (hts : parseETTimestamp (r.getD 0 "") = some ts) :
    rowPasses mode ex now r =
      (!(ex && (pyLower (customerOf r) = "dealer")) && windowInclude mode ts now) := by
  unfold rowPasses
  rw [if_neg (by omega), hts]
  by_cases hd : (ex && (pyLower (customerOf r) = "dealer")) = true <;> simp [hd]

theorem rowPasses_mono (m₁ m₂ : String) (ex : Bool) (now : ETDateTime)
    (himp : ∀ ts, windowInclude m₁ ts now = true → windowInclude m₂ ts now = true)
    (r : List String) (h : rowPasses m₁ ex now r = true) :
    rowPasses m₂ ex now r = true := by
  by_cases hl : r.length < 4
  · unfold rowPasses at h
    simp [hl] at h
  · cases hp : parseETTimestamp (r.getD 0 "") with
    | none =>
      unfold rowPasses at h
      rw [if_neg hl, hp] at h
      exact absurd h (by simp)
    | some ts =>
      have h4 : 4 ≤ r.length := by omega
      rw [rowPasses_of_parse m₁ ex now ts r h4 hp] at h
      rw [rowPasses_of_parse m₂ ex now ts r h4 hp]
      rw [Bool.and_eq_true] at h ⊢
      exact ⟨h.1, himp ts h.2⟩

/-! ### Claim theorems -/

/-- C1: for every list of ledger rows and every grouping key, each count of
compute_counts is exactly the number of admitted rows with that group key,
a row with a decodable timestamp is admitted exactly when the window test
holds for it, and the window test of compute_counts means: daily is the
same calendar date as now, monthly the same year and month, ytd the same
year, and all is unconditional. -/
theorem compute_counts_window_correct :
    (∀ ts now : ETDateTime, windowInclude "daily" ts now = true ↔
      ts.year = now.year ∧ ts.month = now.month ∧ ts.day = now.day) ∧
    (∀ ts now : ETDateTime, windowInclude "monthly" ts now = true ↔
      ts.year = now.year ∧ ts.month = now.month) ∧
    (∀ ts now : ETDateTime, windowInclude "ytd" ts now = true ↔ ts.year = now.year) ∧
    (∀ ts now : ETDateTime, windowInclude "all" ts now = true) ∧
    (∀ (rows : List (List String)) (mode key : String) (now : ETDateTime) (k : String),
      lookupCount (compute_counts rows mode key false now) k =
        rows.countP (fun r => rowPasses mode false now r && (rowKeyOf key r = k))) ∧
    (∀ (mode : String) (now : ETDateTime) (r : List String) (ts : ETDateTime),
      4 ≤ r.length → parseETTimestamp (r.getD 0 "") = some ts →
      rowPasses mode false now r = windowInclude mode ts now) := by
  refine ⟨?_, ?_, ?_, ?_, ?_, ?_⟩
  · intro ts now; rw [windowInclude_daily]; simp
  · intro ts now; rw [windowInclude_monthly]; simp
  · intro ts now; rw [windowInclude_ytd]; simp
  · intro ts now; exact windowInclude_all ts now
  · intro rows mode key now k; exact lookupCount_compute_counts rows mode key false now k
  · intro mode now r ts hlen hts
    rw [rowPasses_of_parse mode false now ts r hlen hts]
    simp

/-- Witness for C1 at a concrete decodable row and window. -/
theorem compute_counts_window_correct_witness :
    rowPasses "daily" false ⟨2024, 3, 4, 12, 0, 0⟩ ["2024-03-04 05:06:07 ET", "1", "Ann", "Mgr"] =
      windowInclude "daily" ⟨2024, 3, 4, 5, 6, 7⟩ ⟨2024, 3, 4, 12, 0, 0⟩ :=
  compute_counts_window_correct.2.2.2.2.2 "daily" ⟨2024, 3, 4, 12, 0, 0⟩
    ["2024-03-04 05:06:07 ET", "1", "Ann", "Mgr"] ⟨2024, 3, 4, 5, 6, 7⟩
    (by decide) (by decide)

/-- C7: compute_counts never raises (the embedding is total) and a row
whose timestamp does not decode, or with fewer than four populated cells,
is skipped: deleting it from the input changes no count under any window,
grouping, or exclusion flag. -/
theorem compute_counts_skips_bad_rows (pre post : List (List String)) (r : List String)
    (mode key : String) (ex : Bool) (now : ETDateTime)
    (h : r.length < 4 ∨ parseETTimestamp (r.getD 0 "") = none) :
    compute_counts (pre ++ r :: post) mode key ex now =
      compute_counts (pre ++ post) mode key ex now := by
  unfold compute_counts
  rw [List.foldl_append, List.foldl_append, List.foldl_cons]
  have hskip : processRow mode key ex now (pre.foldl (processRow mode key ex now) []) r =
      pre.foldl (processRow mode key ex now) [] := by
    unfold processRow
    by_cases hl : r.length < 4
    · rw [if_pos hl]
    · rcases h with h | h
      · exact absurd h hl
      · rw [if_neg hl, h]
  rw [hskip]

/-- Witness for C7: a row with an undecodable timestamp leaves the counts
of the remaining rows untouched. -/
theorem compute_counts_skips_bad_rows_witness :
    compute_counts ([] ++ ["garbage", "1", "Ann", "Mgr"] :: [["2024-03-04 05:06:07 ET", "1", "Ann", "Mgr"]])
        "all" "rep" false ⟨2024, 3, 4, 12, 0, 0⟩ =
      compute_counts ([] ++ [["2024-03-04 05:06:07 ET", "1", "Ann", "Mgr"]])
        "all" "rep" false ⟨2024, 3, 4, 12, 0, 0⟩ :=
  compute_counts_skips_bad_rows [] [["2024-03-04 05:06:07 ET", "1", "Ann", "Mgr"]]
    ["garbage", "1", "Ann", "Mgr"] "all" "rep" false ⟨2024, 3, 4, 12, 0, 0⟩
    (Or.inr (by decide))

/-- C9: on reading the sales range the first row, and only the first row,
is dropped, and it is dropped exactly when its first cell after strip and
lower contains the substring timestamp or the concatenation of its
stripped lowercased cells contains the substring rep; content alone
decides, so a first data row that coincidentally matches is dropped too. -/
theorem header_detection_exact :
    (fetch_sales_rows [] = []) ∧
    (∀ (r : List String) (rest : List (List String)),
      fetch_sales_rows (r :: rest) = if headerLikeSales r then rest else r :: rest) ∧
    (∀ r : List String, headerLikeSales r = true ↔
      r ≠ [] ∧
        ("timestamp".data <:+: (pyLower (pyStrip (r.headD ""))).data ∨
         "rep".data <:+: (String.join (r.map (fun c => pyLower (pyStrip c)))).data)) := by
  refine ⟨rfl, ?_, ?_⟩
  · intro r rest
    unfold fetch_sales_rows
    simp
  · intro r
    cases r with
    | nil => simp [headerLikeSales]
    | cons a as =>
      unfold headerLikeSales
      simp only [List.map_cons, List.headD_cons, List.map]
      rw [if_neg (by simp)]
      simp [pyIn, containsSub_iff]

/-- C10: with the same current time, the count of every group is monotone
along the window chain: daily at most monthly, monthly at most ytd, ytd at
most all, for every grouping key and either exclusion flag. -/
theorem window_monotone (rows : List (List String)) (key : String) (ex : Bool)
    (now : ETDateTime) (k : String) :
    lookupCount (compute_counts rows "daily" key ex now) k ≤
      lookupCount (compute_counts rows "monthly" key ex now) k ∧
    lookupCount (compute_counts rows "monthly" key ex now) k ≤
      lookupCount (compute_counts rows "ytd" key ex now) k ∧
    lookupCount (compute_counts rows "ytd" key ex now) k ≤
      lookupCount (compute_counts rows "all" key ex now) k := by
  refine ⟨?_, ?_, ?_⟩ <;> rw [lookupCount_compute_counts, lookupCount_compute_counts] <;>
    refine List.countP_mono_left ?_ <;> intro r hr h <;> rw [Bool.and_eq_true] at h ⊢
  · exact ⟨rowPasses_mono "daily" "monthly" ex now
      (fun ts => windowInclude_daily_le_monthly ts now) r h.1, h.2⟩
  · exact ⟨rowPasses_mono "monthly" "ytd" ex now
      (fun ts => windowInclude_monthly_le_ytd ts now) r h.1, h.2⟩
  · exact ⟨rowPasses_mono "ytd" "all" ex now
      (fun ts => by rw [windowInclude_all]; exact fun _ => rfl) r h.1, h.2⟩

/-- C3: on a two-row ledger with one normal row and one row whose customer
cell is the dealer marker case-insensitively, both decodable and inside
the window, rep leaderboard aggregation (exclusion on) counts one sale in
total, while manager leaderboard aggregation (exclusion off) counts two. -/
theorem dealer_exclusion_counts (r1 r2 : List String) (mode : String)
    (now ts1 ts2 : ETDateTime)
    (h1 : parseETTimestamp (r1.getD 0 "") = some ts1)
    (h2 : parseETTimestamp (r2.getD 0 "") = some ts2)
    (hl1 : 4 ≤ r1.length) (hl2 : 4 ≤ r2.length)
    (hw1 : windowInclude mode ts1 now = true)
    (hw2 : windowInclude mode ts2 now = true)
    (hc1 : pyLower (customerOf r1) ≠ "dealer")
    (hc2 : pyLower (customerOf r2) = "dealer") :
    totalCount (compute_counts [r1, r2] mode "rep" true now) = 1 ∧
    totalCount (compute_counts [r1, r2] mode "manager" false now) = 2 := by
  have p1t : rowPasses mode true now r1 = true := by
    rw [rowPasses_of_parse mode true now ts1 r1 hl1 h1]
    simp [hc1, hw1]
  have p2t : rowPasses mode true now r2 = false := by
    rw [rowPasses_of_parse mode true now ts2 r2 hl2 h2]
    simp [hc2]
  have p1f : rowPasses mode false now r1 = true := by
    rw [rowPasses_of_parse mode false now ts1 r1 hl1 h1]
    simp [hw1]
  have p2f : rowPasses mode false now r2 = true := by
    rw [rowPasses_of_parse mode false now ts2 r2 hl2 h2]
    simp [hw2]
  constructor <;> rw [totalCount_compute_counts] <;>
    simp [List.countP_cons, p1t, p2t, p1f, p2f]

/-- Witness for C3 at a concrete normal row and a concrete dealer row. -/
theorem dealer_exclusion_counts_witness :
    totalCount (compute_counts [["2024-03-04 05:06:07 ET", "1", "Ann", "Mgr", "Jane Doe", "Wire3", "1G"],
      ["2024-03-04 06:00:00 ET", "7", "Bulk", "Elite", "Dealer", "Omni", ""]]
      "daily" "rep" true ⟨2024, 3, 4, 12, 0, 0⟩) = 1 ∧
    totalCount (compute_counts [["2024-03-04 05:06:07 ET", "1", "Ann", "Mgr", "Jane Doe", "Wire3", "1G"],
      ["2024-03-04 06:00:00 ET", "7", "Bulk", "Elite", "Dealer", "Omni", ""]]
      "daily" "manager" false ⟨2024, 3, 4, 12, 0, 0⟩) = 2 :=
  dealer_exclusion_counts
    ["2024-03-04 05:06:07 ET", "1", "Ann", "Mgr", "Jane Doe", "Wire3", "1G"]
    ["2024-03-04 06:00:00 ET", "7", "Bulk", "Elite", "Dealer", "Omni", ""]
    "daily" ⟨2024, 3, 4, 12, 0, 0⟩ ⟨2024, 3, 4, 5, 6, 7⟩ ⟨2024, 3, 4, 6, 0, 0⟩
    (by decide) (by decide) (by decide) (by decide) (by decide) (by decide)
    (by decide) (by decide)

/-- C5: whenever the roster map has no entry for the invoking user or that
entry is marked inactive, manager resolution returns none, the plan step
blocks with the corrective message outcome, and the ledger is unchanged:
no append happens for that attempt. -/
theorem identity_unresolved_blocks (roster : List (Int × RosterInfo)) (uid : Int)
    (st : PlanSelectState) (plan userName : String) (sheet : List (List String))
    (now : ETDateTime)
    (h : lookupRoster roster uid = none ∨
      ∃ info, lookupRoster roster uid = some info ∧ info.active = false) :
    lookup_manager_for_rep roster uid = none ∧
    PlanSelect_callback roster st plan uid userName sheet now = (sheet, .blocked) := by
  have hm : lookup_manager_for_rep roster uid = none := by
    rcases h with h | ⟨info, hinfo, hact⟩
    · simp [lookup_manager_for_rep, h]
    · simp [lookup_manager_for_rep, hinfo, hact]
  exact ⟨hm, by simp [PlanSelect_callback, hm]⟩

/-- Witness for C5 at a roster whose only entry is inactive. -/
theorem identity_unresolved_blocks_witness :
    lookup_manager_for_rep [(1, ⟨"Ann", "Mgr", false⟩)] 1 = none ∧
    PlanSelect_callback [(1, ⟨"Ann", "Mgr", false⟩)] ⟨"Jane Doe", "Astound", 1⟩ "1G" 1 "Ann"
      [] ⟨2024, 3, 4, 5, 6, 7⟩ = ([], .blocked) :=
  identity_unresolved_blocks [(1, ⟨"Ann", "Mgr", false⟩)] 1 ⟨"Jane Doe", "Astound", 1⟩
    "1G" "Ann" [] ⟨2024, 3, 4, 5, 6, 7⟩
    (Or.inr ⟨⟨"Ann", "Mgr", false⟩, by decide, rfl⟩)

/-- C6: encoding any valid instant with the timestamp codec and decoding
the resulting string succeeds and returns the same calendar date, hour,
minute and second; the encoded text carries the fixed Eastern zone marker
and the decoder reattaches that same fixed zone, which is implicit in the
embedding. -/
theorem timestamp_roundtrip (t : ETDateTime)
    (h : validDT t.year t.month t.day t.hour t.minute t.second) :
    parseETTimestamp (formatET t) = some t := by
  unfold parseETTimestamp formatET
  rw [show (⟨formatETChars t⟩ : String).data = formatETChars t from rfl, pyStripChars_format]
  exact parseETChars_format t h

/-- Witness for C6 at a leap-day instant. -/
theorem timestamp_roundtrip_witness :
    parseETTimestamp (formatET ⟨2024, 2, 29, 23, 5, 0⟩) = some ⟨2024, 2, 29, 23, 5, 0⟩ :=
  timestamp_roundtrip ⟨2024, 2, 29, 23, 5, 0⟩ (by decide)

/-- C2 (amended): when the plan step resolves with the manager found,
exactly one row is appended whose customer, provider and plan cells are
the three selections, with the timestamp freshly encoded at commit time,
and the reported daily count is recomputed by re-reading the just-written
ledger through the aggregation engine rather than taken from a counter;
however nothing marks the session committed, so a second plan selection on
the same session performs a second append instead of being rejected. -/
theorem plan_commit_behaviour (roster : List (Int × RosterInfo)) (st : PlanSelectState)
    (plan : String) (uid : Int) (userName : String) (sheet : List (List String))
    (now : ETDateTime) (manager : String)
    (h : lookup_manager_for_rep roster uid = some manager) :
    PlanSelect_callback roster st plan uid userName sheet now =
      (sheet ++ [[formatET now, toString uid, userName, manager, st.customer, st.isp, plan]],
       .logged ((get_rep_counts
         (sheet ++ [[formatET now, toString uid, userName, manager, st.customer, st.isp, plan]])
         uid now).daily)) ∧
    (PlanSelect_callback roster st plan uid userName
        (sheet ++ [[formatET now, toString uid, userName, manager, st.customer, st.isp, plan]])
        now).1 =
      sheet ++ [[formatET now, toString uid, userName, manager, st.customer, st.isp, plan]]
        ++ [[formatET now, toString uid, userName, manager, st.customer, st.isp, plan]] := by
  constructor
  · simp [PlanSelect_callback, h, append_sale_to_sheet]
  · simp [PlanSelect_callback, h, append_sale_to_sheet]

/-- Witness for C2 at a concrete session, roster and empty ledger. -/
theorem plan_commit_behaviour_witness :
    PlanSelect_callback [(1, ⟨"Ann", "Mgr", true⟩)] ⟨"Jane Doe", "Astound", 1⟩ "1G" 1 "Ann"
      [] ⟨2024, 3, 4, 5, 6, 7⟩ =
      ([] ++ [[formatET ⟨2024, 3, 4, 5, 6, 7⟩, toString (1 : Int), "Ann", "Mgr", "Jane Doe",
        "Astound", "1G"]],
       .logged ((get_rep_counts
         ([] ++ [[formatET ⟨2024, 3, 4, 5, 6, 7⟩, toString (1 : Int), "Ann", "Mgr", "Jane Doe",
           "Astound", "1G"]]) 1 ⟨2024, 3, 4, 5, 6, 7⟩).daily)) :=
  (plan_commit_behaviour [(1, ⟨"Ann", "Mgr", true⟩)] ⟨"Jane Doe", "Astound", 1⟩ "1G" 1 "Ann"
    [] ⟨2024, 3, 4, 5, 6, 7⟩ "Mgr" (by decide)).1

/-- C2 counterexample: the claim that the session cannot be advanced a
second time after commit is false of the code.  The plan step keeps no
committed flag, so replaying the selection on the ledger produced by the
first commit appends a second row: after two invocations the ledger holds
two rows, where the claim requires the second invocation to be rejected. -/
theorem plan_commit_second_advance_cex :
    (PlanSelect_callback [(1, ⟨"Ann", "Mgr", true⟩)] ⟨"Jane Doe", "Astound", 1⟩ "1G" 1 "Ann"
      ((PlanSelect_callback [(1, ⟨"Ann", "Mgr", true⟩)] ⟨"Jane Doe", "Astound", 1⟩ "1G" 1 "Ann"
        [] ⟨2024, 3, 4, 5, 6, 7⟩).1) ⟨2024, 3, 4, 5, 6, 7⟩).1.length = 2 := by
  decide

/-- C4: in a dealer context the bulk flow with a validated whole-number
count between 1 and 200 and a chosen provider appends, in one batch,
exactly that many rows, each carrying the dealer marker as customer, an
empty plan, the one timestamp encoded before the loop, and the dealer
group label configured for the invoking channel; a non-numeric count, a
count at most 0, and a count above the 200 cap are rejected with distinct
failure kinds and leave the ledger untouched. -/
theorem bulk_capture_validation (value : String) (uid : Int) (userName isp : String)
    (groups : List (Int × String)) (channel_id : Int) (now : ETDateTime)
    (sheet : List (List String)) :
    (pyParseInt (pyStrip value) = none →
      bulklog_flow value uid userName groups channel_id isp now sheet =
        (sheet, .notWholeNumber)) ∧
    (∀ n : Int, pyParseInt (pyStrip value) = some n → n ≤ 0 →
      bulklog_flow value uid userName groups channel_id isp now sheet =
        (sheet, .tooSmall)) ∧
    (∀ n : Int, pyParseInt (pyStrip value) = some n → 200 < n →
      bulklog_flow value uid userName groups channel_id isp now sheet =
        (sheet, .tooLarge)) ∧
    (∀ n : Int, pyParseInt (pyStrip value) = some n → 1 ≤ n → n ≤ 200 →
      bulklog_flow value uid userName groups channel_id isp now sheet =
        (sheet ++ List.replicate n.toNat
          [formatET now, toString uid, userName, get_dealer_group_name groups channel_id,
           "Dealer", isp, ""],
         .proceed n) ∧
      (bulklog_flow value uid userName groups channel_id isp now sheet).1.length =
        sheet.length + n.toNat) := by
  refine ⟨?_, ?_, ?_, ?_⟩
  · intro h
    simp [bulklog_flow, BulkCountModal_on_submit, h]
  · intro n h hn
    simp [bulklog_flow, BulkCountModal_on_submit, h, if_pos hn]
  · intro n h hn
    have hn0 : ¬ n ≤ 0 := by omega
    have hcap : n > MAX_BULK_LOG := by simp [MAX_BULK_LOG]; omega
    simp [bulklog_flow, BulkCountModal_on_submit, h, hn0, hcap]
  · intro n h hn1 hn200
    have hn0 : ¬ n ≤ 0 := by omega
    have hcap : ¬ n > MAX_BULK_LOG := by simp [MAX_BULK_LOG]; omega
    constructor
    · simp [bulklog_flow, BulkCountModal_on_submit, h, hn0, hcap,
        BulkISPView_submit_rows]
    · simp [bulklog_flow, BulkCountModal_on_submit, h, hn0, hcap,
        BulkISPView_submit_rows]

/-- Witness for C4: every validation branch at concrete inputs, with
count 5 producing the five dealer rows under the configured group label. -/
theorem bulk_capture_validation_witness :
    bulklog_flow "abc" 9 "Rep" [(42, "Elite")] 42 "Quantum" ⟨2024, 3, 4, 5, 6, 7⟩ [] =
      ([], .notWholeNumber) ∧
    bulklog_flow "0" 9 "Rep" [(42, "Elite")] 42 "Quantum" ⟨2024, 3, 4, 5, 6, 7⟩ [] =
      ([], .tooSmall) ∧
    bulklog_flow "500" 9 "Rep" [(42, "Elite")] 42 "Quantum" ⟨2024, 3, 4, 5, 6, 7⟩ [] =
      ([], .tooLarge) ∧
    bulklog_flow "5" 9 "Rep" [(42, "Elite")] 42 "Quantum" ⟨2024, 3, 4, 5, 6, 7⟩ [] =
      ([] ++ List.replicate (5 : Int).toNat
        [formatET ⟨2024, 3, 4, 5, 6, 7⟩, toString (9 : Int), "Rep",
         get_dealer_group_name [(42, "Elite")] 42, "Dealer", "Quantum", ""],
       .proceed 5) :=
  ⟨(bulk_capture_validation "abc" 9 "Rep" "Quantum" [(42, "Elite")] 42 ⟨2024, 3, 4, 5, 6, 7⟩
      []).1 (by decide),
   (bulk_capture_validation "0" 9 "Rep" "Quantum" [(42, "Elite")] 42 ⟨2024, 3, 4, 5, 6, 7⟩
      []).2.1 0 (by decide) (by decide),
   (bulk_capture_validation "500" 9 "Rep" "Quantum" [(42, "Elite")] 42 ⟨2024, 3, 4, 5, 6, 7⟩
      []).2.2.1 500 (by decide) (by decide),
   ((bulk_capture_validation "5" 9 "Rep" "Quantum" [(42, "Elite")] 42 ⟨2024, 3, 4, 5, 6, 7⟩
      []).2.2.2 5 (by decide) (by decide) (by decide)).1⟩

/-- C8 (amended): a resolution finding a nonempty cached map younger than
120 seconds returns that snapshot unchanged without touching the store, so
two such resolutions return the identical snapshot whatever happened to
the store between them and the backing read happens at most once per
120-second interval while the cached map is nonempty; a resolution after
the TTL expired re-reads the store and reflects its new content.  A fill
that produced an empty map is not treated as a valid cache: every
subsequent resolution re-reads the store until a nonempty map arrives. -/
theorem roster_cache_ttl (store₁ store₂ : List (List String)) (now₁ now₂ : Int)
    (c : RosterCache) :
    (c.map ≠ [] → now₁ - c.ts < 120 → now₂ - c.ts < 120 →
      get_roster_map_cached store₁ now₁ c = (c.map, c) ∧
      get_roster_map_cached store₂ now₂ c = (c.map, c)) ∧
    (120 ≤ now₁ - c.ts →
      get_roster_map_cached store₁ now₁ c =
        (build_roster_map store₁, ⟨now₁, build_roster_map store₁⟩)) := by
  constructor
  · intro hne h1 h2
    constructor
    · simp [get_roster_map_cached, ROSTER_TTL_SECONDS, hne, h1]
    · simp [get_roster_map_cached, ROSTER_TTL_SECONDS, hne, h2]
  · intro h
    have : ¬ (c.map ≠ [] ∧ now₁ - c.ts < ROSTER_TTL_SECONDS) := by
      simp [ROSTER_TTL_SECONDS]
      intro _
      omega
    simp [get_roster_map_cached, this]

/-- Witness for C8: both the fresh-cache branch and the expired branch at
concrete stores, times and cache states. -/
theorem roster_cache_ttl_witness :
    (get_roster_map_cached [["7", "Ann", "Mgr", "yes"]] 5 ⟨0, [(1, ⟨"A", "M", true⟩)]⟩ =
      ([(1, ⟨"A", "M", true⟩)], ⟨0, [(1, ⟨"A", "M", true⟩)]⟩) ∧
     get_roster_map_cached [["8", "Bob", "M2", "yes"]] 10 ⟨0, [(1, ⟨"A", "M", true⟩)]⟩ =
      ([(1, ⟨"A", "M", true⟩)], ⟨0, [(1, ⟨"A", "M", true⟩)]⟩)) ∧
    get_roster_map_cached [["7", "Ann", "Mgr", "yes"]] 130 ⟨0, [(1, ⟨"A", "M", true⟩)]⟩ =
      (build_roster_map [["7", "Ann", "Mgr", "yes"]],
       ⟨130, build_roster_map [["7", "Ann", "Mgr", "yes"]]⟩) :=
  ⟨(roster_cache_ttl [["7", "Ann", "Mgr", "yes"]] [["8", "Bob", "M2", "yes"]] 5 10
      ⟨0, [(1, ⟨"A", "M", true⟩)]⟩).1 (by decide) (by decide) (by decide),
   (roster_cache_ttl [["7", "Ann", "Mgr", "yes"]] [["8", "Bob", "M2", "yes"]] 130 0
      ⟨0, [(1, ⟨"A", "M", true⟩)]⟩).2 (by decide)⟩

/-- C8 counterexample: the claim as stated is false after a completed fill
that cached an empty map.  The cache fills at time 0 from an empty store;
two resolutions at times 5 and 10, both far inside the 120-second window
of that fill, return different snapshots once the store content changes
between them, and each performs its own backing read. -/
theorem roster_cache_ttl_cex :
    (get_roster_map_cached [["7", "Ann", "Mgr", "yes"]] 10
       (get_roster_map_cached [] 5 (get_roster_map_cached [] 0 ⟨0, []⟩).2).2).1 ≠
    (get_roster_map_cached [] 5 (get_roster_map_cached [] 0 ⟨0, []⟩).2).1 := by
  decide

end Salesbison
